import Mathlib

/-!
Shallow embedding of the bull-put-spread 0DTE backtest
(`bull_spread_strategy.py`) and of the data-fetch checks of
`backtest_alpha_vantage.py`.

Conventions:
- Prices, strikes, deltas and account values are exact rationals.
- Quantities that can be IEEE NaN in the source (pandas rolling windows
  before they fill, 0/0 in the RSI quotient) are modelled by `PyF`, whose
  `nan` compares false under `<`, exactly as IEEE NaN does in Python.
- Dates are day indices (`ℤ`), day 0 being a Monday, so Python's
  `date.weekday()` is `d % 7` and `+ timedelta(days=1)` is `+ 1`.
- Python `int(x)` truncates toward zero: `pyInt`.
- Fallible code (`.iloc[0]` on an empty selection raises IndexError;
  `int(...)` of the inf/nan produced by a zero `max_risk` raises) is
  embedded with `Except PyErr`.
-/

attribute [local semireducible] Rat.add Rat.sub Rat.mul Rat.inv Rat.ofScientific

/-- A Python float that may be NaN (pandas rolling windows that have not
filled, or a 0/0 quotient). -/
inductive PyF where
  | nan
  | val (q : ℚ)
  deriving DecidableEq

/-- IEEE `<` on possibly-NaN values: any comparison with NaN is false. -/
def PyF.lt : PyF → PyF → Bool
  | .val a, .val b => decide (a < b)
  | _, _ => false

/-- Python `int(x)`: truncation toward zero. -/
def pyInt (q : ℚ) : ℤ := if 0 ≤ q then ⌊q⌋ else ⌈q⌉

/-- A row of the raw QQQ price data; only the columns the strategy reads. -/
structure PriceBar where
  date : ℤ
  close : ℚ
  deriving DecidableEq

/-- A price bar after `add_indicators`: the derived columns added to
`qqq_data`. -/
structure IndBar where
  date : ℤ
  close : ℚ
  rsi : PyF
  sma_20 : PyF
  sma_50 : PyF
  deriving DecidableEq

inductive OptType where
  | put
  | call
  deriving DecidableEq

/-- A row of the options-chain data. -/
structure OptionQuote where
  date : ℤ
  expiration_date : ℤ
  option_type : OptType
  strike : ℚ
  bid : ℚ
  ask : ℚ
  delta : ℚ
  deriving DecidableEq

/-- The strategy parameter dict. -/
structure Params where
  entry_rsi_threshold : ℚ
  profit_target_pct : ℚ
  stop_loss_pct : ℚ
  width_between_strikes : ℚ
  max_position_size : ℚ
  deriving DecidableEq

/-- The dict returned by `find_bull_put_spread`. -/
structure Trade where
  short_put : OptionQuote
  long_put : OptionQuote
  num_spreads : ℤ
  max_risk : ℚ
  max_profit : ℚ
  deriving DecidableEq

/-- The position dict built in `run_backtest` at entry. -/
structure Position where
  entry_date : ℤ
  expiry_date : ℤ
  short_put : OptionQuote
  long_put : OptionQuote
  num_spreads : ℤ
  initial_credit : ℚ
  max_risk : ℚ
  deriving DecidableEq

/-- The dict appended to `trade_history` at close. -/
structure TradeRecord where
  entry_date : ℤ
  exit_date : ℤ
  profit_loss : ℚ
  profit_pct : ℚ
  deriving DecidableEq

/-- The ENTRY event dict appended to `results`. -/
structure EntryEvent where
  date : ℤ
  account_value : ℚ
  trade_details : Position
  deriving DecidableEq

/-- Python exceptions the embedded code can raise: IndexError from
`.iloc[0]` on an empty selection, and the error raised by `int(...)` of
the inf/nan a zero `max_risk` produces. -/
inductive PyErr where
  | indexError
  | arithError
  deriving DecidableEq

/-- `gain = delta.where(delta > 0, 0)`: first delta is NaN, and
`NaN > 0` is false, so index 0 gets 0. -/
def gainList (closes : List ℚ) : List ℚ :=
  match closes with
  | [] => []
  | _ :: _ =>
    0 :: (closes.zip closes.tail).map (fun p => if p.1 < p.2 then p.2 - p.1 else 0)

/-- `loss = -delta.where(delta < 0, 0)`, likewise 0 at index 0. -/
def lossList (closes : List ℚ) : List ℚ :=
  match closes with
  | [] => []
  | _ :: _ =>
    0 :: (closes.zip closes.tail).map (fun p => if p.2 < p.1 then p.1 - p.2 else 0)

/-- `rolling(window=w).mean()` at index `i`: NaN until the window fills. -/
def rollMean (xs : List ℚ) (w : ℕ) (i : ℕ) : PyF :=
  if i + 1 < w then .nan
  else .val (((xs.drop (i + 1 - w)).take w).sum / (w : ℚ))

/-- RSI(14) at index `i`, following the float semantics of
`rs = avg_gain / avg_loss; rsi = 100 - 100/(1 + rs)`:
window not filled gives NaN; `avg_loss = 0` with `avg_gain = 0` is 0/0,
giving NaN; `avg_loss = 0` with `avg_gain > 0` gives `rs = inf`, and
`100 - 100/(1 + inf)` evaluates to exactly 100. -/
def rsiAt (closes : List ℚ) (i : ℕ) : PyF :=
  match rollMean (gainList closes) 14 i, rollMean (lossList closes) 14 i with
  | .val g, .val l =>
    if l = 0 then (if g = 0 then .nan else .val 100)
    else .val (100 - 100 / (1 + g / l))
  | _, _ => .nan

/-- `add_indicators`: annotate each bar with rsi, sma_20 and sma_50. -/
def add_indicators (qqq_data : List PriceBar) : List IndBar :=
  let closes := qqq_data.map PriceBar.close
  qqq_data.mapIdx (fun i b =>
    ⟨b.date, b.close, rsiAt closes i, rollMean closes 20 i, rollMean closes 50 i⟩)

/-- `filter_0dte_options`: rows with `date == d` then `expiration_date == d`. -/
def filter_0dte_options (options_data : List OptionQuote) (date : ℤ) : List OptionQuote :=
  (options_data.filter (fun o => decide (o.date = date))).filter
    (fun o => decide (o.expiration_date = date))

/-- `find_bull_put_spread(date, account_value)`.  `.iloc[0]` on the empty
date selection raises IndexError; every other rejection returns `none`
(the Python `None`). -/
def find_bull_put_spread (qqq : List IndBar) (options_data : List OptionQuote)
    (pr : Params) (date : ℤ) (account_value : ℚ) : Except PyErr (Option Trade) :=
  match (qqq.filter (fun b => decide (b.date = date))).head? with
  | none => .error .indexError
  | some current_data =>
    if PyF.lt current_data.rsi (.val pr.entry_rsi_threshold)
        || PyF.lt current_data.sma_20 current_data.sma_50 then
      .ok none
    else
      let todays_options := filter_0dte_options options_data date
      if todays_options.isEmpty then .ok none
      else
        let puts := todays_options.filter (fun o => decide (o.option_type = OptType.put))
        let short_put_candidates := puts.filter
          (fun o => decide (-(0.35 : ℚ) ≤ o.delta) && decide (o.delta ≤ -(0.25 : ℚ)))
        match short_put_candidates.head? with
        | none => .ok none
        | some short_put =>
          let short_strike := short_put.strike
          let long_strike := short_strike - pr.width_between_strikes
          match (puts.filter (fun o => decide (o.strike = long_strike))).head? with
          | none => .ok none
          | some long_put =>
            let max_risk :=
              (short_strike - long_strike) * 100 - (short_put.bid - long_put.ask) * 100
            let max_position := account_value * pr.max_position_size
            if max_risk = 0 then .error .arithError
            else
              let num_spreads := pyInt (max_position / max_risk)
              if num_spreads = 0 then .ok none
              else .ok (some ⟨short_put, long_put, num_spreads, max_risk,
                (short_put.bid - long_put.ask) * 100 * (num_spreads : ℚ)⟩)

/-- `calculate_current_value`: look both legs up by exact strike and type;
`None` when either is missing from the snapshot. -/
def calculate_current_value (position : Position)
    (current_options_data : List OptionQuote) : Option ℚ :=
  let short_put_current := current_options_data.filter
    (fun o => decide (o.strike = position.short_put.strike) && decide (o.option_type = OptType.put))
  let long_put_current := current_options_data.filter
    (fun o => decide (o.strike = position.long_put.strike) && decide (o.option_type = OptType.put))
  match short_put_current.head?, long_put_current.head? with
  | some s, some l =>
    some (position.initial_credit - (s.ask - l.bid) * 100 * (position.num_spreads : ℚ))
  | _, _ => none

/-- Outcome of the per-position body of the management loop
(lines 154-178 of the source): either the position is kept, or it is
closed at the given `current_value` and `profit_pct`. -/
inductive ManageOutcome where
  | keep
  | close (current_value : ℚ) (profit_pct : ℚ)
  deriving DecidableEq

/-- Body of the management loop for one position: skip when the day's
0DTE snapshot is empty or valuation is `None`; otherwise close on profit
target, stop loss, or expiry.  (A position built by entry always has
`max_risk ≠ 0`, so the `ℚ` division here agrees with the source.) -/
def stepPosition (options_data : List OptionQuote) (pr : Params) (current_date : ℤ)
    (position : Position) : ManageOutcome :=
  let current_options := filter_0dte_options options_data current_date
  if current_options.isEmpty then .keep
  else
    match calculate_current_value position current_options with
    | none => .keep
    | some current_value =>
      let profit_pct := current_value / position.max_risk
      if decide (pr.profit_target_pct ≤ profit_pct)
          || decide (profit_pct ≤ -pr.stop_loss_pct)
          || decide (current_date = position.expiry_date) then
        .close current_value profit_pct
      else .keep

/-- The `for position in self.positions` loop with
`self.positions.remove(position)` inside: Python's list iterator advances
by index, so removing the current element makes the iterator skip the
element after it (that element stays in the list, unprocessed). -/
def manageGo (options_data : List OptionQuote) (pr : Params) (current_date : ℤ) :
    List Position → ℚ → List TradeRecord → List Position × ℚ × List TradeRecord
  | [], account_value, trade_history => ([], account_value, trade_history)
  | position :: rest, account_value, trade_history =>
    match stepPosition options_data pr current_date position with
    | .keep =>
      let r := manageGo options_data pr current_date rest account_value trade_history
      (position :: r.1, r.2.1, r.2.2)
    | .close current_value profit_pct =>
      let record : TradeRecord :=
        ⟨position.entry_date, current_date, current_value, profit_pct⟩
      match rest with
      | [] => ([], account_value + current_value, trade_history ++ [record])
      | next :: rest2 =>
        let r := manageGo options_data pr current_date rest2
          (account_value + current_value) (trade_history ++ [record])
        (next :: r.1, r.2.1, r.2.2)

/-- The mutable state of `run_backtest`: account equity, the open
positions (`self.positions`), the trade history, and the ENTRY events. -/
structure BTState where
  account_value : ℚ
  positions : List Position
  trade_history : List TradeRecord
  results : List EntryEvent
  deriving DecidableEq

/-- One iteration of the `while current_date <= end_date` loop: skip
weekends and days without price data, manage open positions, then look
for a new trade only when no position remains open. -/
def dayStep (qqq : List IndBar) (options_data : List OptionQuote) (pr : Params)
    (current_date : ℤ) (s : BTState) : Except PyErr BTState :=
  if 5 ≤ current_date % 7 then .ok s
  else if (qqq.filter (fun b => decide (b.date = current_date))).isEmpty then .ok s
  else
    let m := manageGo options_data pr current_date s.positions s.account_value s.trade_history
    if m.1.isEmpty then
      match find_bull_put_spread qqq options_data pr current_date m.2.1 with
      | .error e => .error e
      | .ok none => .ok ⟨m.2.1, m.1, m.2.2, s.results⟩
      | .ok (some trade) =>
        let initial_credit :=
          (trade.short_put.bid - trade.long_put.ask) * 100 * (trade.num_spreads : ℚ)
        let position : Position :=
          ⟨current_date, current_date, trade.short_put, trade.long_put,
            trade.num_spreads, initial_credit, trade.max_risk⟩
        .ok ⟨m.2.1, m.1 ++ [position], m.2.2, s.results ++ [⟨current_date, m.2.1, position⟩]⟩
    else .ok ⟨m.2.1, m.1, m.2.2, s.results⟩

/-- The while loop, driven by fuel; `run_backtest` supplies exactly
`end_date + 1 - start_date` units, one per calendar day the loop visits. -/
def runLoop (qqq : List IndBar) (options_data : List OptionQuote) (pr : Params)
    (end_date : ℤ) : ℕ → ℤ → BTState → Except PyErr BTState
  | 0, _, s => .ok s
  | fuel + 1, current_date, s =>
    if current_date ≤ end_date then
      match dayStep qqq options_data pr current_date s with
      | .error e => .error e
      | .ok s2 => runLoop qqq options_data pr end_date fuel (current_date + 1) s2
    else .ok s

/-- The performance dict computed at the end of `run_backtest`. -/
structure Performance where
  total_return : ℚ
  win_rate : ℚ
  average_return : ℚ
  total_trades : ℕ
  deriving DecidableEq

def performance_of (trade_history : List TradeRecord)
    (account_value initial_capital : ℚ) : Performance :=
  if trade_history.isEmpty then ⟨0, 0, 0, 0⟩
  else
    let win_trades := (trade_history.filter (fun t => decide (0 < t.profit_loss))).length
    let total_trades := trade_history.length
    let win_rate : ℚ := (win_trades : ℚ) / (total_trades : ℚ)
    let avg_return := (trade_history.map TradeRecord.profit_pct).sum / (total_trades : ℚ)
    ⟨(account_value / initial_capital - 1) * 100, win_rate * 100, avg_return * 100, total_trades⟩

/-- The dict `run_backtest` returns. -/
structure BacktestResult where
  results : List EntryEvent
  trade_history : List TradeRecord
  performance : Performance
  final_account : ℚ
  deriving DecidableEq

/-- `run_backtest(start_date, end_date, initial_capital)` on a freshly
constructed strategy (`__init__` runs `add_indicators` and starts with
empty `positions` and `trade_history`). -/
def run_backtest (qqq_data : List PriceBar) (options_data : List OptionQuote)
    (pr : Params) (start_date end_date : ℤ) (initial_capital : ℚ) :
    Except PyErr BacktestResult :=
  let qqq := add_indicators qqq_data
  match runLoop qqq options_data pr end_date (end_date + 1 - start_date).toNat start_date
      ⟨initial_capital, [], [], []⟩ with
  | .error e => .error e
  | .ok s =>
    .ok ⟨s.results, s.trade_history,
      performance_of s.trade_history s.account_value initial_capital, s.account_value⟩

/-- Exceptions of `get_intraday_data`: missing API key, non-200 HTTP
status, an `Error Message` payload, and a missing time-series key. -/
inductive FetchErr where
  | valueError
  | httpError (status_code : ℕ)
  | apiError
  | missingKey
  deriving DecidableEq

/-- One bar of the returned intraday series (`open` is a Lean keyword,
hence `price_open`). -/
structure IntradayRow where
  timestamp : ℤ
  price_open : ℚ
  high : ℚ
  low : ℚ
  close : ℚ
  volume : ℚ
  deriving DecidableEq

/-- The HTTP response: status code and the decoded JSON object, modelled
as an association list from top-level keys to (already-decoded) series. -/
structure APIResponse where
  status_code : ℕ
  body : List (String × List IntradayRow)
  deriving DecidableEq

def insertByTimestamp (r : IntradayRow) : List IntradayRow → List IntradayRow
  | [] => [r]
  | x :: xs =>
    if r.timestamp ≤ x.timestamp then r :: x :: xs else x :: insertByTimestamp r xs

/-- `df.sort_values('timestamp')` (timestamps are unique JSON keys, so
any sort gives the same result). -/
def sortByTimestamp (rows : List IntradayRow) : List IntradayRow :=
  rows.foldr insertByTimestamp []

/-- `get_intraday_data(symbol, interval, api_key, output_size)` applied to
the response the network returned: the validation chain of the source
(missing key → ValueError; `status_code != 200` → raise;
`'Error Message' in data` → raise; `'Time Series (<interval>)' not in
data` → raise), then the series rows tagged with the symbol column and
sorted by timestamp. -/
def get_intraday_data (symbol interval : String) (api_key : Option String)
    (resp : APIResponse) : Except FetchErr (List (IntradayRow × String)) :=
  match api_key with
  | none => .error .valueError
  | some _ =>
    if resp.status_code ≠ 200 then .error (.httpError resp.status_code)
    else if resp.body.any (fun kv => kv.1 == "Error Message") then .error .apiError
    else
      let time_series_key := "Time Series (" ++ interval ++ ")"
      match (resp.body.filter (fun kv => kv.1 == time_series_key)).head? with
      | none => .error .missingKey
      | some kv => .ok ((sortByTimestamp kv.2).map (fun r => (r, symbol)))

def isOkE {ε α : Type} : Except ε α → Bool
  | .ok _ => true
  | .error _ => false

deriving instance DecidableEq for Except

/-- Concrete data for the scenario claims: a single price bar (so every
indicator window is unfilled and rsi, sma_20, sma_50 are all NaN). -/
def qqqRaw1 : List PriceBar := [⟨0, 100⟩]

def qqqA : List IndBar := add_indicators qqqRaw1

/-- Short leg of the worked scenario: bid 1.20, delta −0.30. -/
def shortQ1 : OptionQuote := ⟨0, 0, .put, 100, 1.2, 1.5, -0.3⟩

/-- Long leg of the worked scenario: strike 5 below, ask 0.40. -/
def longQ1 : OptionQuote := ⟨0, 0, .put, 95, 0.3, 0.4, -0.1⟩

def opts1 : List OptionQuote := [shortQ1, longQ1]

/-- The example parameters of the source's `__main__` block. -/
def pr1 : Params := ⟨40, 0.5, 1.5, 5, 0.05⟩

/-- The candidate the worked scenario produces. -/
def tradeC3 : Trade := ⟨shortQ1, longQ1, 11, 420, 880⟩

/-- The position `run_backtest` opens from it on day 0. -/
def posC1 : Position := ⟨0, 0, shortQ1, longQ1, 11, 880, 420⟩

def s0 : BTState := ⟨100000, [], [], []⟩

/-- Quotes with the short bid above the spread width: net credit 6.00 on
a 5-wide spread, so `max_risk` is negative. -/
def shortQ2 : OptionQuote := ⟨0, 0, .put, 100, 6, 7, -0.3⟩

def longQ2 : OptionQuote := ⟨0, 0, .put, 95, 0.1, 0, -0.1⟩

def opts2 : List OptionQuote := [shortQ2, longQ2]


/-- The management loop never adds a position: its output list of open
positions is never longer than its input. -/
theorem manageGo_length_le (options_data : List OptionQuote) (pr : Params)
    (current_date : ℤ) (ps : List Position) (a : ℚ) (h : List TradeRecord) :
    (manageGo options_data pr current_date ps a h).1.length ≤ ps.length := by
  induction ps, a, h using manageGo.induct options_data pr current_date with
  | case1 a h => simp [manageGo]
  | case2 position rest a h hstep ih =>
    simp only [manageGo, hstep, List.length_cons]
    omega
  | case3 position a h v pct hstep =>
    simp [manageGo, hstep]
  | case4 position a h v pct hstep record next rest2 ih =>
    unfold record at ih
    simp only [manageGo, hstep, List.length_cons]
    omega

/-- Bookkeeping of the management loop: the trade history grows by some
list of records, and the account moves by exactly the sum of their
`profit_loss` fields (each of which is the `current_value` of the
position closed by that record). -/
theorem manageGo_trades (options_data : List OptionQuote) (pr : Params)
    (current_date : ℤ) (ps : List Position) (a : ℚ) (h : List TradeRecord) :
    ∃ recs : List TradeRecord,
      (manageGo options_data pr current_date ps a h).2.2 = h ++ recs ∧
      (manageGo options_data pr current_date ps a h).2.1 =
        a + (recs.map TradeRecord.profit_loss).sum := by
  induction ps, a, h using manageGo.induct options_data pr current_date with
  | case1 a h => exact ⟨[], by simp [manageGo], by simp [manageGo]⟩
  | case2 position rest a h hstep ih =>
    obtain ⟨recs, h1, h2⟩ := ih
    exact ⟨recs, by simp only [manageGo, hstep]; exact h1,
      by simp only [manageGo, hstep]; exact h2⟩
  | case3 position a h v pct hstep =>
    refine ⟨[⟨position.entry_date, current_date, v, pct⟩], ?_, ?_⟩
    · simp [manageGo, hstep]
    · simp [manageGo, hstep]
  | case4 position a h v pct hstep record next rest2 ih =>
    obtain ⟨recs, h1, h2⟩ := ih
    refine ⟨⟨position.entry_date, current_date, v, pct⟩ :: recs, ?_, ?_⟩
    · simp only [manageGo, hstep]
      rw [h1]
      simp
    · simp only [manageGo, hstep]
      rw [h2]
      simp [add_assoc]

/-- C2: at every simulated day of any `run_backtest` execution, for any
inputs, the set of open positions has at most one element.  Stated as the
inductive invariant over each day transition: a day step started with at
most one open position leaves at most one open position (entry happens
only when the active set has been emptied, and the management loop only
removes).  `run_backtest` starts with `positions = []`, so the invariant
holds at every day of the run. -/
theorem at_most_one_position (qqq : List IndBar) (options_data : List OptionQuote)
    (pr : Params) (current_date : ℤ) (s s2 : BTState)
    (hinv : s.positions.length ≤ 1)
    (hstep : dayStep qqq options_data pr current_date s = .ok s2) :
    s2.positions.length ≤ 1 := by
  simp only [dayStep] at hstep
  split at hstep
  · cases hstep
    exact hinv
  · split at hstep
    · cases hstep
      exact hinv
    · have hlen := manageGo_length_le options_data pr current_date s.positions
        s.account_value s.trade_history
      split at hstep
      · rename_i hempty
        split at hstep
        · cases hstep
        · cases hstep
          simpa using Nat.le_trans hlen hinv
        · cases hstep
          simp only [List.isEmpty_iff] at hempty
          simp [hempty]
      · cases hstep
        simpa using Nat.le_trans hlen hinv

/-- C2 witness: a concrete day step from the empty-position start state
keeps the invariant. -/
theorem at_most_one_position_witness : s0.positions.length ≤ 1 :=
  at_most_one_position [] [] pr1 0 s0 s0 (by decide) (by decide)

/-- C10: a day transition of `run_backtest` never changes `account_value`
except by closing positions: opening a position leaves the account
unchanged, and across any day the account moves by exactly the sum of the
`profit_loss` fields (the computed `current_value`s) of the trade records
appended that day. -/
theorem account_moves_only_on_close (qqq : List IndBar) (options_data : List OptionQuote)
    (pr : Params) (current_date : ℤ) (s s2 : BTState)
    (hstep : dayStep qqq options_data pr current_date s = .ok s2) :
    ∃ recs : List TradeRecord,
      s2.trade_history = s.trade_history ++ recs ∧
      s2.account_value = s.account_value + (recs.map TradeRecord.profit_loss).sum := by
  simp only [dayStep] at hstep
  split at hstep
  · cases hstep
    exact ⟨[], by simp, by simp⟩
  · split at hstep
    · cases hstep
      exact ⟨[], by simp, by simp⟩
    · obtain ⟨recs, h1, h2⟩ := manageGo_trades options_data pr current_date s.positions
        s.account_value s.trade_history
      split at hstep
      · split at hstep
        · cases hstep
        · cases hstep
          exact ⟨recs, h1, h2⟩
        · cases hstep
          exact ⟨recs, h1, h2⟩
      · cases hstep
        exact ⟨recs, h1, h2⟩

/-- C10 witness: the concrete day step from the start state, with no
close, leaves the account exactly unchanged. -/
theorem account_moves_only_on_close_witness :
    ∃ recs : List TradeRecord,
      s0.trade_history = s0.trade_history ++ recs ∧
      s0.account_value = s0.account_value + (recs.map TradeRecord.profit_loss).sum :=
  account_moves_only_on_close [] [] pr1 0 s0 s0 (by decide)

/-- C7: when either leg of an open position has no quote with exactly
matching strike and option type in the day's 0DTE snapshot,
`calculate_current_value` returns the `None` sentinel and the management
loop keeps the position untouched: it stays open and neither the account
value nor the trade history changes. -/
theorem missing_leg_skips_management (options_data : List OptionQuote) (pr : Params)
    (current_date : ℤ) (p : Position) (a : ℚ) (h : List TradeRecord)
    (hmiss :
      ((filter_0dte_options options_data current_date).filter
          (fun o => decide (o.strike = p.short_put.strike) &&
            decide (o.option_type = OptType.put))).head? = none ∨
      ((filter_0dte_options options_data current_date).filter
          (fun o => decide (o.strike = p.long_put.strike) &&
            decide (o.option_type = OptType.put))).head? = none) :
    calculate_current_value p (filter_0dte_options options_data current_date) = none ∧
    manageGo options_data pr current_date [p] a h = ([p], a, h) := by
  have hcv : calculate_current_value p (filter_0dte_options options_data current_date) = none := by
    simp only [calculate_current_value]
    rcases hmiss with hm | hm
    · rw [hm]
    · rw [hm]
      cases hshort : ((filter_0dte_options options_data current_date).filter
          (fun o => decide (o.strike = p.short_put.strike) &&
            decide (o.option_type = OptType.put))).head? with
      | none => rfl
      | some s => rfl
  have hkeep : stepPosition options_data pr current_date p = .keep := by
    simp only [stepPosition, hcv]
    split
    · rfl
    · rfl
  exact ⟨hcv, by simp [manageGo, hkeep]⟩

/-- C7 witness: a concrete day whose 0DTE snapshot is empty, so both leg
lookups fail; the position survives the day with account and history
unchanged. -/
theorem missing_leg_skips_management_witness :
    calculate_current_value posC1 (filter_0dte_options [] 0) = none ∧
    manageGo [] pr1 0 [posC1] 100000 [] = ([posC1], 100000, []) :=
  missing_leg_skips_management [] pr1 0 posC1 100000 [] (Or.inl (by decide))

/-- C6 counterexample: the claim says a date with no matching price bar
gives a silent no-trade; on the concrete single-bar data, date 5 has no
bar and `find_bull_put_spread` raises IndexError (the `.iloc[0]` lookup)
instead of returning the no-trade `None`. -/
theorem find_silent_no_trade_cex :
    find_bull_put_spread qqqA opts1 pr1 5 100000 = .error .indexError ∧
    find_bull_put_spread qqqA opts1 pr1 5 100000 ≠ .ok none := by
  refine ⟨by decide, by decide⟩

/-- C6 amended: on every date with no matching indicator-annotated price
bar, `find_bull_put_spread` raises IndexError (it is not a silent
no-trade); `run_backtest` never reaches this case because it skips any
day whose price data is absent before calling the selector. -/
theorem find_errors_on_absent_bar (qqq : List IndBar) (options_data : List OptionQuote)
    (pr : Params) (date : ℤ) (account_value : ℚ)
    (habs : (qqq.filter (fun b => decide (b.date = date))).head? = none) :
    find_bull_put_spread qqq options_data pr date account_value = .error .indexError := by
  simp only [find_bull_put_spread, habs]

/-- C6 witness: the amended theorem applied to an empty price series. -/
theorem find_errors_on_absent_bar_witness :
    find_bull_put_spread [] opts1 pr1 0 100000 = .error .indexError :=
  find_errors_on_absent_bar [] opts1 pr1 0 100000 (by decide)

/-- C8: `run_backtest` is deterministic: identical price series, options
chain, parameters, date range and initial capital give identical
`BacktestResult`s, in particular identical trade-history sequences.  The
embedded run is a pure function of its inputs; the source has no other
input (no randomness, clock or iteration-order dependence: every "first
match" is taken from the fixed row order of its data). -/
theorem run_backtest_deterministic
    (q1 q2 : List PriceBar) (o1 o2 : List OptionQuote) (p1 p2 : Params)
    (s1 s2 e1 e2 : ℤ) (c1 c2 : ℚ)
    (hq : q1 = q2) (ho : o1 = o2) (hp : p1 = p2) (hs : s1 = s2) (he : e1 = e2)
    (hc : c1 = c2) :
    run_backtest q1 o1 p1 s1 e1 c1 = run_backtest q2 o2 p2 s2 e2 c2 := by
  rw [hq, ho, hp, hs, he, hc]

/-- C8 witness: two runs of the concrete scenario coincide. -/
theorem run_backtest_deterministic_witness :
    run_backtest qqqRaw1 opts1 pr1 0 1 100000 = run_backtest qqqRaw1 opts1 pr1 0 1 100000 :=
  run_backtest_deterministic qqqRaw1 qqqRaw1 opts1 opts1 pr1 pr1 0 0 1 1 100000 100000
    rfl rfl rfl rfl rfl rfl

/-- Sizing helper: a truncated nonneg/positive quotient that the selector
did not reject as zero is at least 1. -/
theorem pyInt_one_le (x y : ℚ) (hx : 0 ≤ x) (hy : 0 < y) (hne : pyInt (x / y) ≠ 0) :
    1 ≤ pyInt (x / y) := by
  have hq : 0 ≤ x / y := div_nonneg hx (le_of_lt hy)
  unfold pyInt at hne ⊢
  rw [if_pos hq] at hne ⊢
  have h0 : 0 ≤ ⌊x / y⌋ := Int.floor_nonneg.mpr hq
  omega

/-- C4 counterexample: with short bid 6.00 and long ask 0.00 on a 5-wide
spread, `find_bull_put_spread` emits a candidate with `max_risk = −100 < 0`
and `num_spreads = −50 < 1` instead of rejecting it: the claimed
`max_risk > 0` and `contract_count ≥ 1` invariants fail. -/
theorem spread_candidate_unchecked_risk_cex :
    find_bull_put_spread qqqA opts2 pr1 0 100000 =
      .ok (some ⟨shortQ2, longQ2, -50, -100, -30000⟩) ∧
    (-100 : ℚ) < 0 ∧ (-50 : ℤ) < 1 := by
  refine ⟨by decide, by decide, by decide⟩

/-- C4 amended: every candidate emitted by `find_bull_put_spread` has
`short_leg.strike − long_leg.strike = width` and a nonzero contract
count, and when `max_risk` is positive (and account value and position
size fraction are nonnegative) the contract count is at least 1; the
code does not check `max_risk > 0` itself, so a candidate with negative
`max_risk` and negative contract count can be emitted. -/
theorem spread_candidate_invariants (qqq : List IndBar) (options_data : List OptionQuote)
    (pr : Params) (date : ℤ) (account_value : ℚ) (t : Trade)
    (hfind : find_bull_put_spread qqq options_data pr date account_value = .ok (some t)) :
    t.short_put.strike - t.long_put.strike = pr.width_between_strikes ∧
    t.num_spreads ≠ 0 ∧
    (0 < t.max_risk → 0 ≤ account_value → 0 ≤ pr.max_position_size →
      1 ≤ t.num_spreads) := by
  simp only [find_bull_put_spread] at hfind
  split at hfind
  · exact absurd hfind (by simp)
  · split at hfind
    · exact absurd hfind (by simp)
    · split at hfind
      · exact absurd hfind (by simp)
      · split at hfind
        · exact absurd hfind (by simp)
        · rename_i short_put heqshort
          split at hfind
          · exact absurd hfind (by simp)
          · rename_i long_put heqlong
            split at hfind
            · exact absurd hfind (by simp)
            · rename_i hmr0
              split at hfind
              · exact absurd hfind (by simp)
              · rename_i hns0
                simp only [Except.ok.injEq, Option.some.injEq] at hfind
                subst hfind
                refine ⟨?_, ?_, ?_⟩
                · have hmem := List.mem_of_mem_head? (Option.mem_def.mpr heqlong)
                  have hpred := (List.mem_filter.mp hmem).2
                  have hstrike := of_decide_eq_true hpred
                  dsimp only
                  rw [hstrike]
                  ring
                · exact hns0
                · intro hmr hav hmps
                  exact pyInt_one_le _ _ (mul_nonneg hav hmps) hmr hns0

/-- C4 witness: the amended invariants hold at the concrete worked
scenario (width 5, `max_risk` 420, 11 contracts). -/
theorem spread_candidate_invariants_witness :
    tradeC3.short_put.strike - tradeC3.long_put.strike = pr1.width_between_strikes ∧
    1 ≤ tradeC3.num_spreads :=
  ⟨(spread_candidate_invariants qqqA opts1 pr1 0 100000 tradeC3 (by decide)).1,
    (spread_candidate_invariants qqqA opts1 pr1 0 100000 tradeC3 (by decide)).2.2
      (by decide) (by decide) (by decide)⟩

/-- C9: `get_intraday_data` fails when the HTTP status is not a success
status (2xx; the code tests `!= 200`, which covers every non-success
status), when the payload carries an `Error Message` key, or when the
`Time Series (<interval>)` key is absent; it returns a bar sequence only
when none of these hold. -/
theorem get_intraday_checks (symbol interval k : String) (resp : APIResponse) :
    (¬ (200 ≤ resp.status_code ∧ resp.status_code < 300) →
      isOkE (get_intraday_data symbol interval (some k) resp) = false) ∧
    (resp.body.any (fun kv => kv.1 == "Error Message") = true →
      isOkE (get_intraday_data symbol interval (some k) resp) = false) ∧
    ((resp.body.filter (fun kv => kv.1 == "Time Series (" ++ interval ++ ")")).head? = none →
      isOkE (get_intraday_data symbol interval (some k) resp) = false) ∧
    (∀ rows, get_intraday_data symbol interval (some k) resp = .ok rows →
      200 ≤ resp.status_code ∧ resp.status_code < 300 ∧
      resp.body.any (fun kv => kv.1 == "Error Message") = false ∧
      (resp.body.filter (fun kv => kv.1 == "Time Series (" ++ interval ++ ")")).head? ≠ none) := by
  by_cases h200 : resp.status_code = 200
  · by_cases herr : resp.body.any (fun kv => kv.1 == "Error Message") = true
    · have hval : get_intraday_data symbol interval (some k) resp = .error .apiError := by
        simp [get_intraday_data, h200, herr]
      refine ⟨fun hc => by rw [hval]; rfl, fun hc => by rw [hval]; rfl,
        fun hc => by rw [hval]; rfl, fun rows hrow => by rw [hval] at hrow; cases hrow⟩
    · cases hts : (resp.body.filter (fun kv => kv.1 == "Time Series (" ++ interval ++ ")")).head? with
      | none =>
        have hval : get_intraday_data symbol interval (some k) resp = .error .missingKey := by
          simp [get_intraday_data, h200, herr, hts]
        refine ⟨fun hc => by rw [hval]; rfl, fun hc => by rw [hval]; rfl,
          fun hc => by rw [hval]; rfl, fun rows hrow => by rw [hval] at hrow; cases hrow⟩
      | some kv =>
        refine ⟨?_, ?_, ?_, ?_⟩
        · exact fun hc => absurd ⟨by omega, by omega⟩ hc
        · exact fun hany => absurd hany herr
        · intro hnone
          cases hnone
        · intro rows hrow
          refine ⟨by omega, by omega, ?_, ?_⟩
          · simp only [Bool.not_eq_true] at herr
            exact herr
          · intro hc
            cases hc
  · have hval : get_intraday_data symbol interval (some k) resp =
        .error (.httpError resp.status_code) := by
      simp [get_intraday_data, h200]
    refine ⟨fun hc => by rw [hval]; rfl, fun hc => by rw [hval]; rfl,
      fun hc => by rw [hval]; rfl, fun rows hrow => by rw [hval] at hrow; cases hrow⟩

/-- A concrete failing response: HTTP 404 with an empty body. -/
def respBad : APIResponse := ⟨404, []⟩

/-- C9 witness: a 404 response makes the fetch fail. -/
theorem get_intraday_checks_witness :
    isOkE (get_intraday_data "QQQ" "1min" (some "demo") respBad) = false :=
  (get_intraday_checks "QQQ" "1min" "demo" respBad).1 (by decide)

/-- C1: with the worked single-bar data and end date 1, `run_backtest`
opens a 0DTE position on day 0 (expiry day 0, before the run's end) and
the final state still holds that position open with an empty trade
history: the position is never closed, and in particular never
force-closed on its expiry date, because the management loop runs before
entry each day and on every later day `current_date == expiry_date` is
already false. -/
theorem position_open_past_expiry :
    runLoop qqqA opts1 pr1 1 2 0 s0 =
      .ok ⟨100000, [posC1], [], [⟨0, 100000, posC1⟩]⟩ ∧
    posC1.expiry_date = 0 ∧ (0 : ℤ) < 1 := by
  refine ⟨by decide, by decide, by decide⟩

/-- C3: the worked sizing scenario: account 100000, width 5, position
size fraction 0.05, short bid 1.20, long ask 0.40 give net credit 0.80,
`max_risk` 420, 11 spreads, and the opened position carries
`initial_credit` 880. -/
theorem scenario_sizing :
    find_bull_put_spread qqqA opts1 pr1 0 100000 = .ok (some tradeC3) ∧
    shortQ1.bid - longQ1.ask = 0.8 ∧
    tradeC3.max_risk = 420 ∧
    tradeC3.num_spreads = 11 ∧
    dayStep qqqA opts1 pr1 0 s0 = .ok ⟨100000, [posC1], [], [⟨0, 100000, posC1⟩]⟩ ∧
    posC1.initial_credit = 880 := by
  refine ⟨by decide, by decide, by decide, by decide, by decide, by decide⟩

/-- C5: on the single-bar data the RSI of day 0 is the NaN sentinel, and
NaN does compare false against the entry threshold; but since the entry
gate rejects on `rsi < threshold`, the false comparison means the gate
does NOT reject, and `find_bull_put_spread` opens a trade on the
sentinel-RSI date, contradicting the claim that it never does. -/
theorem nan_rsi_does_not_block_entry :
    qqqA.map IndBar.rsi = [PyF.nan] ∧
    PyF.lt PyF.nan (PyF.val pr1.entry_rsi_threshold) = false ∧
    find_bull_put_spread qqqA opts1 pr1 0 100000 = .ok (some tradeC3) ∧
    find_bull_put_spread qqqA opts1 pr1 0 100000 ≠ .ok none := by
  refine ⟨by decide, rfl, by decide, by decide⟩
